import Mathlib

/-!
Verification development for the stockflow-case-study backend.

The repository has three source files:
* `src/routes/alerts.py` — low-stock alert computation (`_ads`, `_threshold`,
  `_best_supplier`, `low_stock_alerts`);
* `src/utils/money.py` — money parsing (`as_money`);
* `src/routes/products.py` — product creation (`create_product`).

The relational store is embedded shallowly: each table is a list of records,
SQL `SELECT ... WHERE` becomes `List.filter` / `List.find?`, `ORDER BY ...
LIMIT 1` becomes head of a stable insertion sort, aggregate `SUM` becomes a
list sum.  Numeric SQL/float values are modelled as `ℚ`, timestamps and ids
as `Int`.
-/

namespace StockFlow

/-! ## Data model (tables referenced by the routes) -/

structure Warehouse where
  id : Int
  company_id : Int
  name : String
deriving DecidableEq, Repr

structure Product where
  id : Int
  name : String
  sku : String
  price : ℚ
  product_type_id : Option Int
deriving DecidableEq, Repr

structure ProductType where
  id : Int
  default_low_stock_threshold : Option ℚ
deriving DecidableEq, Repr

structure Inventory where
  product_id : Int
  warehouse_id : Int
  quantity : ℚ
deriving DecidableEq, Repr

structure ProductThreshold where
  company_id : Int
  product_id : Int
  warehouse_id : Option Int
  threshold : ℚ
deriving DecidableEq, Repr

structure Order where
  id : Int
  company_id : Int
  created_at : Int
  status : String
deriving DecidableEq, Repr

structure OrderLine where
  order_id : Int
  product_id : Int
  warehouse_id : Int
  qty : ℚ
deriving DecidableEq, Repr

structure Supplier where
  id : Int
  name : String
  contact_email : String
deriving DecidableEq, Repr

structure ProductSupplier where
  company_id : Int
  product_id : Int
  supplier_id : Int
  preferred : Bool
  lead_time_days : Int
deriving DecidableEq, Repr

/-- A snapshot of the relational store, one list per table. -/
structure DB where
  warehouses : List Warehouse
  products : List Product
  product_types : List ProductType
  inventory : List Inventory
  thresholds : List ProductThreshold
  orders : List Order
  order_lines : List OrderLine
  suppliers : List Supplier
  product_suppliers : List ProductSupplier
deriving DecidableEq, Repr

/-! ## Money parser (`src/utils/money.py`) -/

/-- A Python `decimal.Decimal` value: a finite (exact rational) number, NaN,
or a signed infinity. -/
inductive PyDec where
  | num (q : ℚ)
  | nan
  | inf (neg : Bool)
deriving DecidableEq, Repr

def digitsToNat (l : List Char) : Nat :=
  l.foldl (fun a c => 10 * a + (c.toNat - 48)) 0

/-- Drop a leading `-` or `+` sign from a character list. -/
def dropSign (l : List Char) : List Char :=
  if l.head? = some '-' ∨ l.head? = some '+' then l.tail else l

/-- Modelled from the Python `decimal` module (not repository code): parses
the numeric part of a decimal literal `digits[.digits][(e|E)[sign]digits]`,
requiring at least one digit in the integer and fraction parts combined. -/
def parseDecDigits (l : List Char) : Option ℚ :=
  let ip := l.takeWhile (·.isDigit)
  let r1 := l.dropWhile (·.isDigit)
  let fp : List Char :=
    if r1.head? = some '.' then r1.tail.takeWhile (·.isDigit) else []
  let r2 : List Char :=
    if r1.head? = some '.' then r1.tail.dropWhile (·.isDigit) else r1
  if ip.isEmpty && fp.isEmpty then none
  else
    let mant : ℚ := (digitsToNat ip : ℚ) + (digitsToNat fp : ℚ) / (10 ^ fp.length : ℚ)
    if r2.isEmpty then some mant
    else if r2.head? = some 'e' ∨ r2.head? = some 'E' then
      let rest := r2.tail
      let eneg : Bool := decide (rest.head? = some '-')
      let r3 := dropSign rest
      let ed := r3.takeWhile (·.isDigit)
      if ed.isEmpty || !(r3.dropWhile (·.isDigit)).isEmpty then none
      else some (if eneg then mant / (10 ^ digitsToNat ed : ℚ)
                 else mant * (10 ^ digitsToNat ed : ℚ))
    else none

/-- Modelled from the Python `decimal` module (not repository code): the
string-to-`Decimal` conversion performed by `Decimal(str(val))`.  Accepts an
optional sign, the special tokens NaN/sNaN/Inf/Infinity (case-insensitive),
or a finite decimal literal; anything else signals `InvalidOperation`
(`none`).  Construction is exact: context precision does not round here. -/
def pyDecimalOfString (s : String) : Option PyDec :=
  let l := s.toList
  let neg : Bool := decide (l.head? = some '-')
  let r := dropSign l
  let low := r.map Char.toLower
  if low = ['n', 'a', 'n'] ∨ low = ['s', 'n', 'a', 'n'] then some PyDec.nan
  else if low = ['i', 'n', 'f'] ∨ low = ['i', 'n', 'f', 'i', 'n', 'i', 't', 'y'] then
    some (PyDec.inf neg)
  else match parseDecDigits r with
    | some q => some (PyDec.num (if neg then -q else q))
    | none => none

/-- Round a rational to an integer, halves away from zero (`ROUND_HALF_UP`
of the Python `decimal` module). -/
def roundHalfUp (x : ℚ) : Int :=
  if x < 0 then -(Int.floor ((1 / 2 : ℚ) + -x)) else Int.floor (x + 1 / 2)

/-- The function `as_money` from `src/utils/money.py`, applied to `str(val)`:
`Decimal(str(val)).quantize(Decimal("0.01"), rounding=ROUND_HALF_UP)` under a
context precision of 28, with `InvalidOperation`/`TypeError` mapped to
`ValueError("Invalid price")`.  `quantize` raises `InvalidOperation` on NaN,
on infinities, and when the coefficient of the quantized result (the value
times 100) would exceed the 28-digit context precision. -/
def as_money (s : String) : Except String ℚ :=
  match pyDecimalOfString s with
  | some (PyDec.num q) =>
    let c := roundHalfUp (100 * q)
    if c.natAbs < 10 ^ 28 then Except.ok ((c : ℚ) / 100)
    else Except.error "Invalid price"
  | some _ => Except.error "Invalid price"
  | none => Except.error "Invalid price"

/-! ## Average daily sales (`_ads`, `src/routes/alerts.py` lines 12–37) -/

/-- The subquery `ro`: orders of the company in the window with status in
`{"shipped", "completed"}`. -/
def adsOrders (db : DB) (company_id since : Int) : List Order :=
  db.orders.filter (fun o =>
    o.company_id == company_id && since ≤ o.created_at &&
      (o.status == "shipped" || o.status == "completed"))

/-- Order lines counted by the `SUM(qty)` aggregate in `_ads`. -/
def adsLines (db : DB) (company_id product_id warehouse_id since : Int) :
    List OrderLine :=
  db.order_lines.filter (fun l =>
    (adsOrders db company_id since).any (fun o => o.id == l.order_id) &&
      l.product_id == product_id && l.warehouse_id == warehouse_id)

/-- The function `_ads`: summed quantity (`COALESCE(SUM(qty), 0.0)`, so `0` on no rows)
divided by `max(lookback_days, 1)`. -/
def _ads (db : DB) (company_id product_id warehouse_id since lookback_days : Int) : ℚ :=
  let total : ℚ := ((adsLines db company_id product_id warehouse_id since).map
    (fun l => l.qty)).sum
  total / ((max lookback_days 1 : Int) : ℚ)

/-! ## Threshold resolution (`_threshold`, `src/routes/alerts.py` lines 40–77) -/

/-- The function `_threshold`: warehouse-specific override, else product-level override
(null warehouse), else — when `product.product_type_id` is truthy, i.e.
neither `None` nor `0` — the product type's default threshold, else `0.0`.
Each `SELECT ... LIMIT 1` becomes `List.find?`. -/
def _threshold (db : DB) (company_id : Int) (product : Product) (warehouse_id : Int) : ℚ :=
  match db.thresholds.find? (fun t =>
      t.company_id == company_id && t.product_id == product.id &&
        t.warehouse_id == some warehouse_id) with
  | some t => t.threshold
  | none =>
    match db.thresholds.find? (fun t =>
        t.company_id == company_id && t.product_id == product.id &&
          t.warehouse_id == none) with
    | some t => t.threshold
    | none =>
      match product.product_type_id with
      | some ptid =>
        if ptid == 0 then 0
        else
          match db.product_types.find? (fun pt => pt.id == ptid) with
          | some pt =>
            match pt.default_low_stock_threshold with
            | some d => d
            | none => 0
          | none => 0
      | none => 0

/-- Modelled from the spec: the resolution order of §4.2 read literally —
step 3 applies whenever "the product has a product type" (`product_type_id`
is not null), with no truthiness test on the id.  Used to compare against
`_threshold`. -/
def resolve_threshold_spec (db : DB) (company_id : Int) (product : Product)
    (warehouse_id : Int) : ℚ :=
  match db.thresholds.find? (fun t =>
      t.company_id == company_id && t.product_id == product.id &&
        t.warehouse_id == some warehouse_id) with
  | some t => t.threshold
  | none =>
    match db.thresholds.find? (fun t =>
        t.company_id == company_id && t.product_id == product.id &&
          t.warehouse_id == none) with
    | some t => t.threshold
    | none =>
      match product.product_type_id with
      | some ptid =>
        match db.product_types.find? (fun pt => pt.id == ptid) with
        | some pt =>
          match pt.default_low_stock_threshold with
          | some d => d
          | none => 0
        | none => 0
      | none => 0

/-! ## Supplier selection (`_best_supplier`, `src/routes/alerts.py` lines 80–105) -/

/-- The `ORDER BY lead_time_days ASC, supplier_id ASC` relation. -/
def supplierOrder (a b : ProductSupplier) : Prop :=
  a.lead_time_days < b.lead_time_days ∨
    (a.lead_time_days = b.lead_time_days ∧ a.supplier_id ≤ b.supplier_id)

instance : DecidableRel supplierOrder := fun a b =>
  inferInstanceAs (Decidable (_ ∨ _))

instance : IsTotal ProductSupplier supplierOrder :=
  ⟨fun a b => by unfold supplierOrder; omega⟩

instance : IsTrans ProductSupplier supplierOrder :=
  ⟨fun a b c hab hbc => by unfold supplierOrder at *; omega⟩

/-- Supplier links of the pair marked preferred (`preferred IS TRUE`). -/
def prefSupplierRows (db : DB) (company_id product_id : Int) : List ProductSupplier :=
  db.product_suppliers.filter (fun l =>
    l.company_id == company_id && l.product_id == product_id && l.preferred)

/-- All supplier links of the pair. -/
def allSupplierRows (db : DB) (company_id product_id : Int) : List ProductSupplier :=
  db.product_suppliers.filter (fun l =>
    l.company_id == company_id && l.product_id == product_id)

/-- The supplier id picked by `_best_supplier`: first the preferred links
ordered by `(lead_time_days, supplier_id)` with `LIMIT 1`; if that is
`None`, the same over all links for the pair. -/
def _best_supplier_id (db : DB) (company_id product_id : Int) : Option Int :=
  match (List.insertionSort supplierOrder (prefSupplierRows db company_id product_id)).head?.map
      (fun l => l.supplier_id) with
  | some sid => some sid
  | none =>
    (List.insertionSort supplierOrder (allSupplierRows db company_id product_id)).head?.map
      (fun l => l.supplier_id)

/-- The function `_best_supplier`: resolve the id, then `db.session.get(Supplier, sid)`,
else `None`. -/
def _best_supplier (db : DB) (company_id product_id : Int) : Option Supplier :=
  match _best_supplier_id db company_id product_id with
  | some sid => db.suppliers.find? (fun s => s.id == sid)
  | none => none

/-! ## The alert scan loop (`low_stock_alerts`, `src/routes/alerts.py` lines 108–213) -/

/-- Skip reasons collected for a scanned row (lines 160–166); attached to the
row's debug record as `reason_if_skip`. -/
def rowReason (ads thr stock : ℚ) : List String :=
  (if ads ≤ 0 then ["no_recent_sales"] else []) ++
    (if thr ≤ 0 then ["zero_threshold"] else []) ++
      (if stock ≥ thr then ["stock_not_below_threshold"] else [])

/-- The keep decision of line 168: `(ads > 0) and (thr > 0) and (stock < thr)`. -/
def rowKeep (ads thr stock : ℚ) : Bool :=
  decide (ads > 0) && decide (thr > 0) && decide (stock < thr)

structure SupplierInfo where
  id : Int
  name : String
  contact_email : String
deriving DecidableEq, Repr

/-- One element of the `alerts` response list (lines 191–201). -/
structure Alert where
  product_id : Int
  product_name : String
  sku : String
  warehouse_id : Int
  warehouse_name : String
  current_stock : ℚ
  threshold : ℚ
  days_until_stockout : Option ℚ
  supplier : Option SupplierInfo
deriving DecidableEq, Repr

/-- The body of the scan loop for one inventory row (lines 146–201): look up
the prefetched product and warehouse (`continue` when either is missing),
compute `ads` and `thr`, and return the alert record when the row is kept. -/
def processRow (db : DB) (company_id since lookback_days : Int) (row : Inventory) :
    Option Alert :=
  match db.products.find? (fun p => p.id == row.product_id),
      db.warehouses.find? (fun w => w.id == row.warehouse_id) with
  | some p, some w =>
    let stock := row.quantity
    let ads := _ads db company_id row.product_id row.warehouse_id since lookback_days
    let thr := _threshold db company_id p row.warehouse_id
    if rowKeep ads thr stock then
      some
        { product_id := p.id
          product_name := p.name
          sku := p.sku
          warehouse_id := w.id
          warehouse_name := w.name
          current_stock := stock
          threshold := thr
          days_until_stockout := if ads > 0 then some (stock / ads) else none
          supplier := (_best_supplier db company_id row.product_id).map
            (fun s => ⟨s.id, s.name, s.contact_email⟩) }
    else none
  | _, _ => none

/-- The scan loop with its early exit (lines 146–204): append each kept
alert, and `break` as soon as `len(alerts) >= limit` right after appending. -/
def scanLoop (db : DB) (company_id since lookback_days limit : Int) :
    List Inventory → List Alert → List Alert
  | [], acc => acc
  | row :: rest, acc =>
    match processRow db company_id since lookback_days row with
    | none => scanLoop db company_id since lookback_days limit rest acc
    | some a =>
      let acc2 := acc ++ [a]
      if limit ≤ (acc2.length : Int) then acc2
      else scanLoop db company_id since lookback_days limit rest acc2

/-- The alerts produced, in scan order, when the loop never exits early. -/
def keptAlerts (db : DB) (company_id since lookback_days : Int)
    (rows : List Inventory) : List Alert :=
  rows.filterMap (processRow db company_id since lookback_days)

/-- Python truthiness of an optional integer (`if target_warehouse:`). -/
def pyTruthy : Option Int → Bool
  | none => false
  | some t => t != 0

/-- Python list slicing `l[:n]`, for any integer `n`. -/
def pySlice (n : Int) (l : List α) : List α :=
  if 0 ≤ n then l.take n.toNat else l.take ((l.length : Int) + n).toNat

/-- Inventory rows scanned (lines 122–131): inventory joined to warehouses of
the company, with the warehouse filter applied only when `target_warehouse`
is truthy. -/
def invRowsFor (db : DB) (company_id : Int) (target_warehouse : Option Int) :
    List Inventory :=
  let base := db.inventory.filter (fun r =>
    db.warehouses.any (fun w => w.id == r.warehouse_id && w.company_id == company_id))
  if pyTruthy target_warehouse then
    base.filter (fun r => r.warehouse_id == target_warehouse.getD 0)
  else base

/-- The sort relation of line 206: ascending `current_stock - threshold`. -/
def alertLE (a b : Alert) : Prop :=
  a.current_stock - a.threshold ≤ b.current_stock - b.threshold

instance : DecidableRel alertLE := fun a b =>
  inferInstanceAs (Decidable (_ ≤ _))

instance : IsTotal Alert alertLE := ⟨fun a b => le_total _ _⟩

instance : IsTrans Alert alertLE := ⟨fun _ _ _ => le_trans⟩

/-- The route body `low_stock_alerts` (lines 108–213) after query-parameter parsing: scan
the inventory rows collecting kept alerts with the early exit, stable-sort by
`stock - threshold` (Python `list.sort` is stable, as is insertion sort), and
truncate with `alerts[:limit]` when more than `limit` alerts were kept.
`now` stands for `datetime.utcnow()`; `since = now - lookback_days`. -/
def low_stock_alerts (db : DB) (now company_id lookback_days limit : Int)
    (target_warehouse : Option Int) : List Alert :=
  let since := now - lookback_days
  let collected := scanLoop db company_id since lookback_days limit
    (invRowsFor db company_id target_warehouse) []
  let sorted := List.insertionSort alertLE collected
  if limit < (sorted.length : Int) then pySlice limit sorted else sorted

/-- Variant of `low_stock_alerts` with the final truncation step (lines 207–208)
removed; used to test whether that step is redundant. -/
def low_stock_alerts_no_trunc (db : DB) (now company_id lookback_days limit : Int)
    (target_warehouse : Option Int) : List Alert :=
  let since := now - lookback_days
  let collected := scanLoop db company_id since lookback_days limit
    (invRowsFor db company_id target_warehouse) []
  List.insertionSort alertLE collected

/-- Modelled from Python's `str.strip()` (not repository code): remove
leading and trailing whitespace. -/
def pyStrip (s : String) : String :=
  ⟨((s.toList.dropWhile Char.isWhitespace).reverse.dropWhile
      Char.isWhitespace).reverse⟩

/-- Modelled from Python's built-in `int()` (not repository code), restricted
to optionally signed decimal digit strings with surrounding whitespace;
`none` models the `ValueError`. -/
def pyInt (s : String) : Option Int :=
  let l := (pyStrip s).toList
  let neg : Bool := decide (l.head? = some '-')
  let ds : List Char := dropSign l
  if ds.isEmpty then none
  else if ds.all (·.isDigit) then
    some (if neg then -(digitsToNat ds : Int) else (digitsToNat ds : Int))
  else none

/-- The route handler seen from the `warehouse_id` query parameter (lines
112–118): `int(target_warehouse)` when present, answering
`400 invalid_warehouse_id` on `ValueError`, else the alert computation. -/
def low_stock_alerts_route (db : DB) (now company_id lookback_days limit : Int)
    (warehouse_param : Option String) : Except String (List Alert) :=
  match warehouse_param with
  | none => Except.ok (low_stock_alerts db now company_id lookback_days limit none)
  | some s =>
    match pyInt s with
    | none => Except.error "invalid_warehouse_id"
    | some t =>
      Except.ok (low_stock_alerts db now company_id lookback_days limit (some t))

/-! ## Product creation (`create_product`, `src/routes/products.py`) -/

/-- The JSON payload of `POST /api/products`.  `price` is `str(payload.get("price"))`
(`"None"` when the field is absent); `initial_quantity` is modelled already
converted by `int(...)`, so the conversion-failure branch collapses into the
negativity check. -/
structure CreatePayload where
  name : Option String
  sku : Option String
  price : String
  initial_quantity : Int
  warehouse_id : Option Int
deriving DecidableEq, Repr

inductive CreateResp where
  | badRequest (fields : List String)
  | notFound
  | conflict
  | created (product_id : Int)
deriving DecidableEq, Repr

/-- The mutable store touched by `create_product`, with the id the next
`flush` will assign. -/
structure PStore where
  warehouses : List Warehouse
  products : List Product
  inventory : List Inventory
  next_product_id : Int
deriving DecidableEq, Repr

/-- The route body `create_product` (`src/routes/products.py` lines 11–84) as a state
transition.  Validation, then the warehouse existence check, then the
transactional block: product insert and optional inventory upsert, committed
together.  The sku uniqueness constraint lives in the schema (`models.py`,
outside `src/`) and is modelled from the spec as a scan of existing skus; its
violation (`IntegrityError`) rolls the transaction back — the original store
is returned unchanged — and maps to `409 sku_already_exists`. -/
def create_product (st : PStore) (pl : CreatePayload) : CreateResp × PStore :=
  let name := pyStrip (pl.name.getD "")
  let sku := pyStrip (pl.sku.getD "")
  let priceRes := as_money pl.price
  let errs : List String :=
    (if name == "" then ["name"] else []) ++
      (if sku == "" then ["sku"] else []) ++
        (match priceRes with
          | Except.error _ => ["price"]
          | Except.ok _ => []) ++
          (if pl.initial_quantity < 0 then ["initial_quantity"] else [])
  if !errs.isEmpty then (CreateResp.badRequest errs, st)
  else
    let whMissing :=
      match pl.warehouse_id with
      | some wid => !(st.warehouses.any (fun w => w.id == wid))
      | none => false
    if whMissing then (CreateResp.notFound, st)
    else if st.products.any (fun p => p.sku == sku) then (CreateResp.conflict, st)
    else
      let price := match priceRes with
        | Except.ok q => q
        | Except.error _ => 0
      let p : Product :=
        { id := st.next_product_id, name := name, sku := sku, price := price
          product_type_id := none }
      let inv2 :=
        match pl.warehouse_id with
        | none => st.inventory
        | some wid =>
          if st.inventory.any (fun i => i.product_id == p.id && i.warehouse_id == wid) then
            st.inventory.map (fun i =>
              if i.product_id == p.id && i.warehouse_id == wid then
                { i with quantity := (pl.initial_quantity : ℚ) }
              else i)
          else st.inventory ++ [⟨p.id, wid, (pl.initial_quantity : ℚ)⟩]
      (CreateResp.created p.id,
        { st with products := st.products ++ [p], inventory := inv2
                  next_product_id := st.next_product_id + 1 })

/-! ## Concrete example data -/

/-- Two products in one warehouse, both below their thresholds and with
recent sales, with distinct deficiencies: product 101 sits at deficiency
`-1`, product 102 at `-5`, and 101 comes first in scan order. -/
def exDB : DB :=
  { warehouses := [⟨1, 1, "wh-one"⟩]
    products :=
      [⟨101, "widget", "W-101", 5, none⟩, ⟨102, "gadget", "G-102", 5, none⟩]
    product_types := []
    inventory := [⟨101, 1, 9⟩, ⟨102, 1, 5⟩]
    thresholds := [⟨1, 101, none, 10⟩, ⟨1, 102, none, 10⟩]
    orders := [⟨1, 1, 80, "shipped"⟩]
    order_lines := [⟨1, 101, 1, 3⟩, ⟨1, 102, 1, 3⟩]
    suppliers := []
    product_suppliers := [] }

/-- A product whose `product_type_id` is the falsy id `0`, while a
`ProductType` row with id `0` and a default threshold exists and no override
rows exist. -/
def pZero : Product := ⟨201, "typed", "T-201", 5, some 0⟩

def exDB2 : DB :=
  { warehouses := [⟨1, 1, "wh-one"⟩]
    products := [pZero]
    product_types := [⟨0, some 7⟩]
    inventory := []
    thresholds := []
    orders := []
    order_lines := []
    suppliers := []
    product_suppliers := [] }

/-- A product with a normal (non-zero) product type id. -/
def exP3 : Product := ⟨101, "widget", "W-101", 5, some 9⟩

/-- Threshold override rows at all three levels for product 101, with the
warehouse-specific row inserted after the product-level row. -/
def exDB3 : DB :=
  { warehouses := [⟨2, 1, "wh-two"⟩]
    products := [exP3]
    product_types := [⟨9, some 8⟩]
    inventory := []
    thresholds := [⟨1, 101, none, 3⟩, ⟨1, 101, some 2, 5⟩]
    orders := []
    order_lines := []
    suppliers := []
    product_suppliers := [] }

/-- Two preferred supplier links with equal lead times and distinct ids. -/
def exDB4 : DB :=
  { warehouses := []
    products := [⟨101, "widget", "W-101", 5, none⟩]
    product_types := []
    inventory := []
    thresholds := []
    orders := []
    order_lines := []
    suppliers := [⟨3, "acme", "a@x.io"⟩, ⟨7, "zenith", "z@x.io"⟩]
    product_suppliers := [⟨1, 101, 7, true, 5⟩, ⟨1, 101, 3, true, 5⟩] }

def exStore : PStore :=
  { warehouses := [⟨1, 1, "wh-one"⟩]
    products := [⟨101, "widget", "W-101", 5, none⟩]
    inventory := [⟨101, 1, 9⟩]
    next_product_id := 102 }

def exPayload : CreatePayload :=
  { name := some "widget two", sku := some "W-101", price := "19.95"
    initial_quantity := 4, warehouse_id := some 1 }

/-! ## Helper lemmas -/

theorem keptAlerts_nil (db : DB) (company_id since lookback_days : Int) :
    keptAlerts db company_id since lookback_days [] = [] := rfl

theorem keptAlerts_cons_none (db : DB) (company_id since lookback_days : Int)
    (row : Inventory) (rest : List Inventory)
    (h : processRow db company_id since lookback_days row = none) :
    keptAlerts db company_id since lookback_days (row :: rest) =
      keptAlerts db company_id since lookback_days rest := by
  simp [keptAlerts, List.filterMap_cons, h]

theorem keptAlerts_cons_some (db : DB) (company_id since lookback_days : Int)
    (row : Inventory) (rest : List Inventory) (a : Alert)
    (h : processRow db company_id since lookback_days row = some a) :
    keptAlerts db company_id since lookback_days (row :: rest) =
      a :: keptAlerts db company_id since lookback_days rest := by
  simp [keptAlerts, List.filterMap_cons, h]

/-- Closed form of the scan loop: with accumulator `acc` it extends `acc` by
the next kept alerts, stopping after `max (limit - len acc) 1` of them (the
`break` fires only after an append, so at least one alert is always taken
when one exists, even when `limit - len acc ≤ 0`). -/
theorem scanLoop_eq_take (db : DB) (company_id since lookback_days limit : Int) :
    ∀ (rows : List Inventory) (acc : List Alert),
      scanLoop db company_id since lookback_days limit rows acc =
        acc ++ (keptAlerts db company_id since lookback_days rows).take
          (max (limit - (acc.length : Int)) 1).toNat := by
  intro rows
  induction rows with
  | nil => intro acc; simp [scanLoop, keptAlerts]
  | cons row rest ih =>
    intro acc
    cases h : processRow db company_id since lookback_days row with
    | none =>
      rw [keptAlerts_cons_none db company_id since lookback_days row rest h]
      simp only [scanLoop, h]
      exact ih acc
    | some a =>
      rw [keptAlerts_cons_some db company_id since lookback_days row rest a h]
      simp only [scanLoop, h]
      by_cases hb : limit ≤ ((acc ++ [a]).length : Int)
      · rw [if_pos hb]
        have hK : (max (limit - (acc.length : Int)) 1).toNat = 1 := by
          simp only [List.length_append, List.length_cons, List.length_nil] at hb
          omega
        rw [hK, List.take_succ_cons, List.take_zero]
      · rw [if_neg hb]
        rw [ih (acc ++ [a])]
        have hK : (max (limit - (acc.length : Int)) 1).toNat
            = (max (limit - ((acc ++ [a]).length : Int)) 1).toNat + 1 := by
          simp only [List.length_append, List.length_cons, List.length_nil] at hb ⊢
          omega
        rw [hK, List.take_succ_cons]
        simp

/-- The scan loop started empty collects the first `max limit 1` kept alerts. -/
theorem scanLoop_nil_eq (db : DB) (company_id since lookback_days limit : Int)
    (rows : List Inventory) :
    scanLoop db company_id since lookback_days limit rows [] =
      (keptAlerts db company_id since lookback_days rows).take (max limit 1).toNat := by
  rw [scanLoop_eq_take db company_id since lookback_days limit rows []]
  simp

/-- For `limit ≥ 1` the whole pipeline is: take the first `limit` kept
alerts in scan order, then sort; the final truncation guard never fires. -/
theorem low_stock_alerts_eq_of_one_le (db : DB) (now company_id lookback_days limit : Int)
    (target_warehouse : Option Int) (hl : 1 ≤ limit) :
    low_stock_alerts db now company_id lookback_days limit target_warehouse =
      List.insertionSort alertLE
        ((keptAlerts db company_id (now - lookback_days) lookback_days
          (invRowsFor db company_id target_warehouse)).take limit.toNat) := by
  have hmax : max limit 1 = limit := by omega
  rw [low_stock_alerts, scanLoop_nil_eq, hmax]
  have hlen : ((List.insertionSort alertLE
      ((keptAlerts db company_id (now - lookback_days) lookback_days
        (invRowsFor db company_id target_warehouse)).take limit.toNat)).length : Int) ≤
      limit := by
    rw [List.length_insertionSort]
    have := List.length_take_le limit.toNat
      (keptAlerts db company_id (now - lookback_days) lookback_days
        (invRowsFor db company_id target_warehouse))
    omega
  rw [if_neg (by omega)]

theorem pySlice_subset (n : Int) (l : List α) : pySlice n l ⊆ l := by
  unfold pySlice
  split
  · exact List.take_subset _ _
  · exact List.take_subset _ _

/-- Every alert in the route's output comes from `processRow` on a scanned
inventory row. -/
theorem mem_low_stock_alerts (db : DB) (now company_id lookback_days limit : Int)
    (target_warehouse : Option Int) (a : Alert)
    (ha : a ∈ low_stock_alerts db now company_id lookback_days limit target_warehouse) :
    ∃ row ∈ invRowsFor db company_id target_warehouse,
      processRow db company_id (now - lookback_days) lookback_days row = some a := by
  rw [low_stock_alerts, scanLoop_nil_eq] at ha
  have hs : a ∈ List.insertionSort alertLE
      ((keptAlerts db company_id (now - lookback_days) lookback_days
        (invRowsFor db company_id target_warehouse)).take (max limit 1).toNat) := by
    by_cases hg : limit < ((List.insertionSort alertLE
        ((keptAlerts db company_id (now - lookback_days) lookback_days
          (invRowsFor db company_id target_warehouse)).take (max limit 1).toNat)).length : Int)
    · rw [if_pos hg] at ha
      exact pySlice_subset _ _ ha
    · rwa [if_neg hg] at ha
  rw [List.mem_insertionSort] at hs
  have hk : a ∈ keptAlerts db company_id (now - lookback_days) lookback_days
      (invRowsFor db company_id target_warehouse) := List.take_subset _ _ hs
  rw [keptAlerts, List.mem_filterMap] at hk
  exact hk

/-- The head of an insertion sort under a total transitive relation is a
minimum of the list. -/
theorem insertionSort_head_min {α : Type} (r : α → α → Prop) [DecidableRel r]
    [IsTotal α r] [IsTrans α r] (l : List α) (h : l ≠ []) :
    ∃ m, (List.insertionSort r l).head? = some m ∧ m ∈ l ∧ ∀ y ∈ l, r m y := by
  cases hs : List.insertionSort r l with
  | nil =>
    exfalso
    have := List.length_insertionSort r l
    rw [hs] at this
    simp at this
    exact h (List.eq_nil_of_length_eq_zero this.symm)
  | cons m rest =>
    refine ⟨m, rfl, ?_, ?_⟩
    · have : m ∈ List.insertionSort r l := by rw [hs]; exact List.mem_cons_self m rest
      rwa [List.mem_insertionSort] at this
    · intro y hy
      have hy2 : y ∈ List.insertionSort r l := by rwa [List.mem_insertionSort]
      rw [hs] at hy2
      rcases List.mem_cons.mp hy2 with rfl | hy3
      · rcases IsTotal.total (r := r) y y with h1 | h1 <;> exact h1
      · have hsorted := List.sorted_insertionSort r l
        rw [hs] at hsorted
        exact List.rel_of_sorted_cons hsorted y hy3

theorem best_supplier_id_of_pref_head (db : DB) (company_id product_id : Int)
    (m : ProductSupplier)
    (h : (List.insertionSort supplierOrder
      (prefSupplierRows db company_id product_id)).head? = some m) :
    _best_supplier_id db company_id product_id = some m.supplier_id := by
  simp [_best_supplier_id, h]

theorem best_supplier_id_of_all_head (db : DB) (company_id product_id : Int)
    (m : ProductSupplier) (hpref : prefSupplierRows db company_id product_id = [])
    (h : (List.insertionSort supplierOrder
      (allSupplierRows db company_id product_id)).head? = some m) :
    _best_supplier_id db company_id product_id = some m.supplier_id := by
  simp [_best_supplier_id, hpref, List.insertionSort, h]

/-! ## Claim theorems -/

/-- C1: a scanned row is kept iff `ads > 0` and `threshold > 0` and
`stock < threshold`; at the boundary `stock = threshold` (with positive ads
and threshold) the row is skipped, strictly below it is kept; and the skip
reason list contains exactly the reasons whose conditions hold, each
evaluated independently. -/
theorem C1_keep_decision_and_reasons :
    (∀ ads thr stock : ℚ,
      rowKeep ads thr stock = true ↔ (0 < ads ∧ 0 < thr ∧ stock < thr)) ∧
    (∀ ads thr : ℚ, 0 < ads → 0 < thr → rowKeep ads thr thr = false) ∧
    (∀ ads thr stock : ℚ, 0 < ads → 0 < thr → stock < thr →
      rowKeep ads thr stock = true) ∧
    (∀ (ads thr stock : ℚ) (r : String),
      r ∈ rowReason ads thr stock ↔
        ((r = "no_recent_sales" ∧ ads ≤ 0) ∨ (r = "zero_threshold" ∧ thr ≤ 0) ∨
          (r = "stock_not_below_threshold" ∧ stock ≥ thr))) := by
  refine ⟨?_, ?_, ?_, ?_⟩
  · intro ads thr stock
    simp [rowKeep, and_assoc]
  · intro ads thr h1 h2
    simp [rowKeep, lt_irrefl]
  · intro ads thr stock h1 h2 h3
    simp [rowKeep, h1, h2, h3]
  · intro ads thr stock r
    by_cases h1 : ads ≤ 0 <;> by_cases h2 : thr ≤ 0 <;> by_cases h3 : stock ≥ thr <;>
      simp [rowReason, h1, h2, h3]

/-- C1 witness: at `ads = 1`, `threshold = 5` the row with `stock = 5` is
skipped and the row with `stock = 4` is kept. -/
theorem C1_witness : rowKeep 1 5 5 = false ∧ rowKeep 1 5 4 = true :=
  ⟨C1_keep_decision_and_reasons.2.1 1 5 (by norm_num) (by norm_num),
    C1_keep_decision_and_reasons.2.2.1 1 5 4 (by norm_num) (by norm_num) (by norm_num)⟩

/-- C3: for `limit ≥ 1` the returned list is exactly the first `limit` kept
rows in inventory scan order, sorted ascending by `stock - threshold`; and on
`exDB` with `limit = 1` this differs from the globally most deficient `limit`
rows. -/
theorem C3_early_exit_and_sort :
    (∀ (db : DB) (now company_id lookback_days limit : Int) (tw : Option Int),
      1 ≤ limit →
      low_stock_alerts db now company_id lookback_days limit tw =
        List.insertionSort alertLE
          ((keptAlerts db company_id (now - lookback_days) lookback_days
            (invRowsFor db company_id tw)).take limit.toNat)) ∧
    low_stock_alerts exDB 100 1 30 1 none ≠
      (List.insertionSort alertLE
        (keptAlerts exDB 1 70 30 (invRowsFor exDB 1 none))).take 1 := by
  constructor
  · intro db now company_id lookback_days limit tw hl
    exact low_stock_alerts_eq_of_one_le db now company_id lookback_days limit tw hl
  · norm_num [low_stock_alerts, scanLoop, processRow, _ads, _threshold,
      _best_supplier, _best_supplier_id, prefSupplierRows, allSupplierRows,
      adsLines, adsOrders, invRowsFor, pyTruthy, rowKeep, pySlice,
      keptAlerts, exDB, List.insertionSort, List.orderedInsert, alertLE,
      List.filterMap_cons]

/-- C3 witness: the characterization applied on `exDB` with `limit = 1`. -/
theorem C3_witness :
    low_stock_alerts exDB 100 1 30 1 none =
      List.insertionSort alertLE
        ((keptAlerts exDB 1 (100 - 30) 30 (invRowsFor exDB 1 none)).take
          (1 : Int).toNat) :=
  C3_early_exit_and_sort.1 exDB 100 1 30 1 none (by norm_num)

/-- C4 counterexample: with `limit = 0` the loop still collects one alert
(the break fires only after appending), so dropping the final truncation
changes the output on `exDB`. -/
theorem C4_counterexample :
    low_stock_alerts exDB 100 1 30 0 none ≠
      low_stock_alerts_no_trunc exDB 100 1 30 0 none := by
  norm_num [low_stock_alerts, low_stock_alerts_no_trunc, scanLoop, processRow,
    _ads, _threshold, _best_supplier, _best_supplier_id, prefSupplierRows,
    allSupplierRows, adsLines, adsOrders, invRowsFor, pyTruthy, rowKeep,
    pySlice, exDB, List.insertionSort, List.orderedInsert, alertLE]

/-- C4 amended: for every input with `limit ≥ 1` the early exit guarantees at
most `limit` collected alerts, so the post-sort truncation is a no-op. -/
theorem C4_trunc_redundant_for_positive_limit :
    ∀ (db : DB) (now company_id lookback_days limit : Int) (tw : Option Int),
      1 ≤ limit →
      low_stock_alerts db now company_id lookback_days limit tw =
        low_stock_alerts_no_trunc db now company_id lookback_days limit tw := by
  intro db now company_id lookback_days limit tw hl
  rw [low_stock_alerts_eq_of_one_le db now company_id lookback_days limit tw hl]
  rw [low_stock_alerts_no_trunc, scanLoop_nil_eq]
  have hmax : max limit 1 = limit := by omega
  rw [hmax]

/-- C4 witness: truncated and untruncated agree on `exDB` at `limit = 2`. -/
theorem C4_witness :
    low_stock_alerts exDB 100 1 30 2 none =
      low_stock_alerts_no_trunc exDB 100 1 30 2 none :=
  C4_trunc_redundant_for_positive_limit exDB 100 1 30 2 none (by norm_num)

/-- C5: the divisor of `_ads` is `max(lookback_days, 1)`, never zero, and
with no matching order lines the result is exactly `0`. -/
theorem C5_ads_total_and_zero :
    ∀ (db : DB) (company_id product_id warehouse_id since lookback_days : Int),
      (((max lookback_days 1 : Int) : ℚ) ≠ 0) ∧
        (adsLines db company_id product_id warehouse_id since = [] →
          _ads db company_id product_id warehouse_id since lookback_days = 0) := by
  intro db company_id product_id warehouse_id since lookback_days
  constructor
  · have h1 : (max lookback_days 1 : Int) ≠ 0 := by omega
    exact_mod_cast Int.cast_ne_zero.mpr h1
  · intro h
    simp [_ads, h]

/-- C5 witness: on `exDB2` (no orders at all) the matching lines are empty
and `_ads` returns `0`. -/
theorem C5_witness : _ads exDB2 1 1 1 0 5 = 0 :=
  (C5_ads_total_and_zero exDB2 1 1 1 0 5).2 rfl

/-- C10: the string `"0"` parses as the integer `0` (no 400 response), but
the warehouse filter is guarded by truthiness, so the response equals the one
with no `warehouse_id` parameter at all. -/
theorem C10_warehouse_zero_ignored :
    pyInt "0" = some 0 ∧
      (∀ (db : DB) (now company_id lookback_days limit : Int),
        low_stock_alerts_route db now company_id lookback_days limit (some "0") =
          Except.ok (low_stock_alerts db now company_id lookback_days limit (some 0))) ∧
      (∀ (db : DB) (now company_id lookback_days limit : Int),
        low_stock_alerts_route db now company_id lookback_days limit (some "0") =
          low_stock_alerts_route db now company_id lookback_days limit none) := by
  have h0 : pyInt "0" = some 0 := by decide
  refine ⟨h0, ?_, ?_⟩
  · intro db now company_id lookback_days limit
    simp [low_stock_alerts_route, h0]
  · intro db now company_id lookback_days limit
    simp [low_stock_alerts_route, h0, low_stock_alerts, invRowsFor, pyTruthy]

/-- C2 counterexample: the claim reads "if the product has a product type,
that type's default threshold if present"; but the code guards the lookup
with Python truthiness of `product_type_id`, so a product whose type id is
`0` skips the lookup even though a `ProductType` row with id `0` and default
`7` exists — the code returns `0`, the claimed resolution order returns `7`. -/
theorem C2_counterexample :
    pZero.product_type_id = some 0 ∧
      exDB2.thresholds = [] ∧
      _threshold exDB2 1 pZero 1 = 0 ∧
      resolve_threshold_spec exDB2 1 pZero 1 = 7 ∧
      _threshold exDB2 1 pZero 1 ≠ resolve_threshold_spec exDB2 1 pZero 1 := by
  refine ⟨rfl, rfl, rfl, rfl, ?_⟩
  norm_num [_threshold, resolve_threshold_spec, exDB2, pZero]

/-- C2 amended: whenever `product_type_id ≠ some 0` the code resolves the
threshold exactly in the claimed strict order (warehouse-specific override,
then product-level override, then type default, then `0`); and whenever a
warehouse-specific override row exists, it wins regardless of its position
among the threshold rows. -/
theorem C2_resolution_order :
    (∀ (db : DB) (company_id : Int) (p : Product) (warehouse_id : Int),
      p.product_type_id ≠ some 0 →
      _threshold db company_id p warehouse_id =
        resolve_threshold_spec db company_id p warehouse_id) ∧
    (∀ (db : DB) (company_id : Int) (p : Product) (warehouse_id : Int),
      (∃ t ∈ db.thresholds, t.company_id = company_id ∧ t.product_id = p.id ∧
        t.warehouse_id = some warehouse_id) →
      ∃ t ∈ db.thresholds, t.company_id = company_id ∧ t.product_id = p.id ∧
        t.warehouse_id = some warehouse_id ∧
        _threshold db company_id p warehouse_id = t.threshold) := by
  constructor
  · intro db company_id p warehouse_id hne
    unfold _threshold resolve_threshold_spec
    cases h1 : db.thresholds.find? (fun t =>
        t.company_id == company_id && t.product_id == p.id &&
          t.warehouse_id == some warehouse_id) with
    | some t => rfl
    | none =>
      cases h2 : db.thresholds.find? (fun t =>
          t.company_id == company_id && t.product_id == p.id &&
            t.warehouse_id == none) with
      | some t => rfl
      | none =>
        cases hp : p.product_type_id with
        | none => rfl
        | some ptid =>
          have hz : (ptid == 0) = false := by
            rw [beq_eq_false_iff_ne]
            intro h
            exact hne (by rw [hp, h])
          dsimp only
          rw [hz]
          simp
  · intro db company_id p warehouse_id ⟨t0, ht0, hc0, hp0, hw0⟩
    have hsome : (db.thresholds.find? (fun t =>
        t.company_id == company_id && t.product_id == p.id &&
          t.warehouse_id == some warehouse_id)).isSome = true := by
      rw [List.find?_isSome]
      exact ⟨t0, ht0, by simp [hc0, hp0, hw0]⟩
    obtain ⟨t, ht⟩ := Option.isSome_iff_exists.mp hsome
    have hmem := List.mem_of_find?_eq_some ht
    have hpred := List.find?_some ht
    simp only [Bool.and_eq_true, beq_iff_eq] at hpred
    refine ⟨t, hmem, hpred.1.1, hpred.1.2, hpred.2, ?_⟩
    unfold _threshold
    rw [ht]

/-- C2 witness: on `exDB3`, where override rows exist at all three levels and
the warehouse-specific row was inserted last, the warehouse-specific value
wins. -/
theorem C2_witness :
    ∃ t ∈ exDB3.thresholds, t.company_id = 1 ∧ t.product_id = exP3.id ∧
      t.warehouse_id = some 2 ∧ _threshold exDB3 1 exP3 2 = t.threshold :=
  C2_resolution_order.2 exDB3 1 exP3 2
    ⟨⟨1, 101, some 2, 5⟩, by simp [exDB3], by simp [exP3]⟩

/-- C6 counterexample: `"1e30"` parses as a finite decimal, yet `as_money`
raises, because quantizing to two decimals would need a 33-digit coefficient,
beyond the 28-digit context precision — so "raises exactly when the input
cannot be parsed as a finite decimal number" is false. -/
theorem C6_counterexample :
    (∃ q, pyDecimalOfString "1e30" = some (PyDec.num q)) ∧
      as_money "1e30" = Except.error "Invalid price" := by
  constructor
  · exact ⟨(1 : ℚ) * 10 ^ 30,
      by simp +decide [pyDecimalOfString, parseDecDigits, dropSign, digitsToNat]⟩
  · have h : pyDecimalOfString "1e30" = some (PyDec.num ((1 : ℚ) * 10 ^ 30)) := by
      simp +decide [pyDecimalOfString, parseDecDigits, dropSign, digitsToNat]
    rw [as_money, h]
    norm_num [roundHalfUp]

/-- C6 amended: `as_money` quantizes to two fractional digits with half-up
rounding (`"19.995"` → `20.00`); `"abc"`, `"None"` (Python `str(None)`),
`"NaN"` and `"Infinity"` all raise; and in general it succeeds exactly on
finite decimals whose half-up-rounded coefficient stays within the 28-digit
context precision, returning the rounded value divided by 100. -/
theorem C6_money_quantize :
    as_money "19.995" = Except.ok 20 ∧
      as_money "abc" = Except.error "Invalid price" ∧
      as_money "None" = Except.error "Invalid price" ∧
      as_money "NaN" = Except.error "Invalid price" ∧
      as_money "Infinity" = Except.error "Invalid price" ∧
      (∀ s : String, (∃ q, as_money s = Except.ok q) ↔
        ∃ q, pyDecimalOfString s = some (PyDec.num q) ∧
          (roundHalfUp (100 * q)).natAbs < 10 ^ 28) ∧
      (∀ (s : String) (q : ℚ), pyDecimalOfString s = some (PyDec.num q) →
        (roundHalfUp (100 * q)).natAbs < 10 ^ 28 →
        as_money s = Except.ok (((roundHalfUp (100 * q) : Int) : ℚ) / 100)) := by
  refine ⟨?_, rfl, rfl, rfl, rfl, ?_, ?_⟩
  · have h : pyDecimalOfString "19.995" = some (PyDec.num (19 + 995 / 10 ^ 3)) := by
      simp +decide [pyDecimalOfString, parseDecDigits, dropSign, digitsToNat]
    rw [as_money, h]
    norm_num [roundHalfUp]
  · intro s
    rw [as_money]
    cases hp : pyDecimalOfString s with
    | none => simp
    | some d =>
      cases d with
      | num q =>
        dsimp only
        by_cases hb : (roundHalfUp (100 * q)).natAbs < 10 ^ 28
        · rw [if_pos hb]
          constructor
          · intro _
            exact ⟨q, rfl, hb⟩
          · intro _
            exact ⟨_, rfl⟩
        · rw [if_neg hb]
          constructor
          · rintro ⟨q2, hq2⟩
            exact absurd hq2 (by simp)
          · rintro ⟨q2, hq2, hb2⟩
            rw [Option.some_inj] at hq2
            cases hq2
            exact absurd hb2 hb
      | nan => simp
      | inf neg => simp
  · intro s q hp hb
    rw [as_money, hp]
    dsimp only
    rw [if_pos hb]

/-- C6 witness: the general success rule applied to `"19.995"`. -/
theorem C6_witness :
    as_money "19.995" =
      Except.ok (((roundHalfUp (100 * (19 + 995 / 10 ^ 3)) : Int) : ℚ) / 100) :=
  C6_money_quantize.2.2.2.2.2.2 "19.995" (19 + 995 / 10 ^ 3)
    (by simp +decide [pyDecimalOfString, parseDecDigits, dropSign, digitsToNat])
    (by norm_num [roundHalfUp])

/-- C7: with no supplier links the result is `None`; with preferred links
the chosen id belongs to a preferred link minimal under
`(lead_time_days, supplier_id)`; with links but none preferred the same holds
over all links; and the ordering breaks lead-time ties by the smaller
supplier id, deterministically (the selector is a pure function of the
store). -/
theorem C7_best_supplier_choice :
    (∀ (db : DB) (company_id product_id : Int),
      allSupplierRows db company_id product_id = [] →
      _best_supplier db company_id product_id = none) ∧
    (∀ (db : DB) (company_id product_id : Int) (l0 : ProductSupplier),
      l0 ∈ prefSupplierRows db company_id product_id →
      ∃ m ∈ prefSupplierRows db company_id product_id,
        _best_supplier_id db company_id product_id = some m.supplier_id ∧
        ∀ l2 ∈ prefSupplierRows db company_id product_id, supplierOrder m l2) ∧
    (∀ (db : DB) (company_id product_id : Int) (l0 : ProductSupplier),
      prefSupplierRows db company_id product_id = [] →
      l0 ∈ allSupplierRows db company_id product_id →
      ∃ m ∈ allSupplierRows db company_id product_id,
        _best_supplier_id db company_id product_id = some m.supplier_id ∧
        ∀ l2 ∈ allSupplierRows db company_id product_id, supplierOrder m l2) ∧
    (∀ m l2 : ProductSupplier, supplierOrder m l2 →
      l2.lead_time_days = m.lead_time_days → m.supplier_id ≤ l2.supplier_id) := by
  refine ⟨?_, ?_, ?_, ?_⟩
  · intro db company_id product_id h
    have hpref : prefSupplierRows db company_id product_id = [] := by
      rw [allSupplierRows, List.filter_eq_nil_iff] at h
      rw [prefSupplierRows, List.filter_eq_nil_iff]
      intro a ha hpa
      apply h a ha
      simp only [Bool.and_eq_true] at hpa ⊢
      exact hpa.1
    simp [_best_supplier, _best_supplier_id, hpref, h, List.insertionSort]
  · intro db company_id product_id l0 h0
    obtain ⟨m, hhead, hmem, hmin⟩ :=
      insertionSort_head_min supplierOrder _ (List.ne_nil_of_mem h0)
    exact ⟨m, hmem,
      best_supplier_id_of_pref_head db company_id product_id m hhead, hmin⟩
  · intro db company_id product_id l0 hpref h0
    obtain ⟨m, hhead, hmem, hmin⟩ :=
      insertionSort_head_min supplierOrder _ (List.ne_nil_of_mem h0)
    exact ⟨m, hmem,
      best_supplier_id_of_all_head db company_id product_id m hpref hhead, hmin⟩
  · intro m l2 hord htie
    unfold supplierOrder at hord
    omega

/-- C7 witness: on `exDB4`, whose two preferred links tie at lead time 5 with
ids 7 and 3, the selector picks a minimal preferred link. -/
theorem C7_witness :
    ∃ m ∈ prefSupplierRows exDB4 1 101,
      _best_supplier_id exDB4 1 101 = some m.supplier_id ∧
      ∀ l2 ∈ prefSupplierRows exDB4 1 101, supplierOrder m l2 :=
  C7_best_supplier_choice.2.1 exDB4 1 101 ⟨1, 101, 7, true, 5⟩ (by decide)

/-- C8: when validation and the warehouse check pass but the (trimmed) sku is
already taken, `create_product` answers 409 conflict and leaves the store
exactly as it was: no product row and no inventory row is added or changed. -/
theorem C8_duplicate_sku_conflict_rollback :
    ∀ (st : PStore) (pl : CreatePayload),
      pyStrip (pl.name.getD "") ≠ "" →
      pyStrip (pl.sku.getD "") ≠ "" →
      (∃ q, as_money pl.price = Except.ok q) →
      0 ≤ pl.initial_quantity →
      (∀ wid, pl.warehouse_id = some wid →
        st.warehouses.any (fun w => w.id == wid) = true) →
      (∃ p ∈ st.products, p.sku = pyStrip (pl.sku.getD "")) →
      create_product st pl = (CreateResp.conflict, st) := by
  intro st pl hname hsku hprice hqty hwh hdup
  obtain ⟨q, hq⟩ := hprice
  obtain ⟨p0, hp0, hps⟩ := hdup
  have hany : st.products.any (fun p => p.sku == pyStrip (pl.sku.getD "")) = true :=
    List.any_eq_true.mpr ⟨p0, hp0, beq_iff_eq.mpr hps⟩
  have hq2 : ¬ pl.initial_quantity < 0 := by omega
  cases hwid : pl.warehouse_id with
  | none => simp [create_product, hq, hname, hsku, hq2, hany, hwid]
  | some wid =>
    have hw := hwh wid hwid
    simp [create_product, hq, hname, hsku, hq2, hany, hwid, hw]

/-- C8 witness: creating a second product with the taken sku `W-101` on
`exStore` conflicts and leaves the store unchanged. -/
theorem C8_witness :
    create_product exStore exPayload = (CreateResp.conflict, exStore) :=
  C8_duplicate_sku_conflict_rollback exStore exPayload
    (by decide) (by decide)
    ⟨1995 / 100, by
      have h : pyDecimalOfString "19.95" = some (PyDec.num (19 + 95 / 10 ^ 2)) := by
        simp +decide [pyDecimalOfString, parseDecDigits, dropSign, digitsToNat]
      show as_money "19.95" = Except.ok (1995 / 100)
      rw [as_money, h]
      norm_num [roundHalfUp]⟩
    (by decide)
    (by
      intro wid hw
      simp only [exPayload, Option.some.injEq] at hw
      subst hw
      decide)
    ⟨⟨101, "widget", "W-101", 5, none⟩, by simp [exStore], by decide⟩

/-- C9: every alert the route returns has a non-null `days_until_stockout`
equal to `stock / ads` for the alert's product and warehouse — the null
branch is unreachable for kept rows because keeping requires `ads > 0`. -/
theorem C9_days_until_stockout_not_null :
    ∀ (db : DB) (now company_id lookback_days limit : Int) (tw : Option Int)
      (a : Alert),
      a ∈ low_stock_alerts db now company_id lookback_days limit tw →
      ∃ q, a.days_until_stockout = some q ∧
        0 < _ads db company_id a.product_id a.warehouse_id
          (now - lookback_days) lookback_days ∧
        q = a.current_stock /
          _ads db company_id a.product_id a.warehouse_id
            (now - lookback_days) lookback_days := by
  intro db now company_id lookback_days limit tw a ha
  obtain ⟨row, _, hp⟩ :=
    mem_low_stock_alerts db now company_id lookback_days limit tw a ha
  simp only [processRow] at hp
  cases hfp : db.products.find? (fun p => p.id == row.product_id) with
  | none => rw [hfp] at hp; simp at hp
  | some p =>
    cases hfw : db.warehouses.find? (fun w => w.id == row.warehouse_id) with
    | none => rw [hfp, hfw] at hp; simp at hp
    | some w =>
      rw [hfp, hfw] at hp
      dsimp only at hp
      have hpid : p.id = row.product_id := by
        have := List.find?_some hfp
        simpa using this
      have hwid : w.id = row.warehouse_id := by
        have := List.find?_some hfw
        simpa using this
      split at hp
      case isFalse => simp at hp
      case isTrue hk =>
        simp only [rowKeep, Bool.and_eq_true, decide_eq_true_eq] at hk
        have hads := hk.1.1
        have ha2 := Option.some_inj.mp hp
        subst ha2
        dsimp only
        rw [hpid, hwid]
        exact ⟨row.quantity /
          _ads db company_id row.product_id row.warehouse_id
            (now - lookback_days) lookback_days,
          by simp [hads], hads, rfl⟩

/-- C9 witness: the single alert returned on `exDB` carries
`days_until_stockout = some 90 = stock / ads` with `ads = 1/10 > 0`. -/
theorem C9_witness :
    ∃ q,
      ({ product_id := 101, product_name := "widget", sku := "W-101",
         warehouse_id := 1, warehouse_name := "wh-one", current_stock := 9,
         threshold := 10, days_until_stockout := some 90,
         supplier := none } : Alert).days_until_stockout = some q ∧
      0 < _ads exDB 1 101 1 (100 - 30) 30 ∧
      q = (9 : ℚ) / _ads exDB 1 101 1 (100 - 30) 30 :=
  C9_days_until_stockout_not_null exDB 100 1 30 1 none _ (by
    norm_num [low_stock_alerts, scanLoop, processRow, _ads, _threshold,
      _best_supplier, _best_supplier_id, prefSupplierRows, allSupplierRows,
      adsLines, adsOrders, invRowsFor, pyTruthy, rowKeep, pySlice,
      exDB, List.insertionSort, List.orderedInsert, alertLE])

end StockFlow
